import Mathlib

/-!
Shallow embedding of the shelytics-guardian risk-zone engine.

The definitions below are translated from:
- `src/src/hooks/useRiskZones.ts` (client evaluator `checkRiskAtLocation`),
- `src/src/hooks/useLocation.ts` (`getDistanceFromLatLonInKm`, `deg2rad`),
- `supabase/functions/check-risk-zone/index.ts` (server evaluator, auto-alert
  gate, response body),
- `supabase/functions/send-sos-alert/index.ts` (SOS incident/alert fan-out).

JavaScript numbers are modelled as real numbers; JS falsiness of `0` in
`x || y` is modelled explicitly where the source relies on it.
-/

namespace Shelytics

open Real

/-- Risk levels, from the `risk_level` enum used throughout the sources. -/
inductive RiskLevel where
  | safe
  | at_risk
  | emergency
deriving DecidableEq

/-- Day/night bucket labels used for time-of-day weighting. -/
inductive TimeBucket where
  | night
  | day
deriving DecidableEq

/-- Time-of-day override map (`time_of_day_risk` JSON column); each key may be
absent, in which case lookup yields `none` (JS `undefined`). -/
structure TimeOfDayRisk where
  night : Option ℝ
  day : Option ℝ

/-- A risk zone row, from the `risk_zones` table / `RiskZone` TS interface. -/
structure RiskZone where
  id : String
  name : String
  latitude : ℝ
  longitude : ℝ
  radius_meters : ℝ
  risk_score : ℝ
  risk_level : RiskLevel
  incident_count : ℕ
  time_of_day_risk : TimeOfDayRisk
  description : String

/-- The server evaluator's accumulator `highestRisk` in
`check-risk-zone/index.ts`: `{level, score, zone, inZone}`. -/
structure EvalResult where
  level : RiskLevel
  score : ℝ
  zone : Option RiskZone
  inZone : Bool

/-- The client evaluator's result in `useRiskZones.ts`:
`{level, score, zone}` (no inside flag). -/
structure ClientResult where
  level : RiskLevel
  score : ℝ
  zone : Option RiskZone

/-- JS `Math.atan2` on real arguments (standard quadrant-aware arctangent). -/
noncomputable def atan2 (y x : ℝ) : ℝ :=
  if 0 < x then arctan (y / x)
  else if x < 0 then
    (if 0 ≤ y then arctan (y / x) + π else arctan (y / x) - π)
  else
    (if 0 < y then π / 2 else if y < 0 then -(π / 2) else 0)

/-- Haversine distance in meters, from `getDistanceInMeters` in
`check-risk-zone/index.ts` (Earth radius 6371e3 m). -/
noncomputable def getDistanceInMeters (lat1 lon1 lat2 lon2 : ℝ) : ℝ :=
  let R : ℝ := 6371e3
  let φ1 := lat1 * π / 180
  let φ2 := lat2 * π / 180
  let Δφ := (lat2 - lat1) * π / 180
  let Δlon := (lon2 - lon1) * π / 180
  let a := sin (Δφ / 2) * sin (Δφ / 2) +
    cos φ1 * cos φ2 * sin (Δlon / 2) * sin (Δlon / 2)
  let c := 2 * atan2 (Real.sqrt a) (Real.sqrt (1 - a))
  R * c

/-- Degrees to radians, from `deg2rad` in `useLocation.ts`. -/
noncomputable def deg2rad (deg : ℝ) : ℝ :=
  deg * (π / 180)

/-- Haversine distance in kilometers, from `getDistanceFromLatLonInKm` in
`useLocation.ts` (Earth radius 6371 km). -/
noncomputable def getDistanceFromLatLonInKm (lat1 lon1 lat2 lon2 : ℝ) : ℝ :=
  let R : ℝ := 6371
  let dLat := deg2rad (lat2 - lat1)
  let dLon := deg2rad (lon2 - lon1)
  let a := sin (dLat / 2) * sin (dLat / 2) +
    cos (deg2rad lat1) * cos (deg2rad lat2) * sin (dLon / 2) * sin (dLon / 2)
  let c := 2 * atan2 (Real.sqrt a) (Real.sqrt (1 - a))
  R * c

/-- Hour-to-bucket rule shared by both evaluators:
`hour >= 18 || hour < 6 ? 'night' : 'day'`. -/
def timeOfDayOfHour (hour : ℕ) : TimeBucket :=
  if 18 ≤ hour ∨ hour < 6 then TimeBucket.night else TimeBucket.day

/-- Bucket lookup in the override map (`zone.time_of_day_risk[timeOfDay]`). -/
def TimeOfDayRisk.get (t : TimeOfDayRisk) : TimeBucket → Option ℝ
  | TimeBucket.night => t.night
  | TimeBucket.day => t.day

/-- Weighted score resolution `zone.time_of_day_risk?.[timeOfDay] || zone.risk_score`
from both evaluators. JS `||` falls through on a falsy left operand, so a
present override of `0` also yields the base `risk_score`. -/
noncomputable def timeRiskOf (zone : RiskZone) (b : TimeBucket) : ℝ :=
  match zone.time_of_day_risk.get b with
  | some v => if v = 0 then zone.risk_score else v
  | none => zone.risk_score

/-- One iteration of the zone loop in `check-risk-zone/index.ts` (lines 66-93),
updating the running `highestRisk`. -/
noncomputable def serverStep (hour : ℕ) (latitude longitude : ℝ)
    (highestRisk : EvalResult) (zone : RiskZone) : EvalResult :=
  let distance := getDistanceInMeters latitude longitude zone.latitude zone.longitude
  if distance ≤ zone.radius_meters then
    let timeRisk := timeRiskOf zone (timeOfDayOfHour hour)
    if timeRisk > highestRisk.score then
      ⟨zone.risk_level, timeRisk, some zone, true⟩
    else highestRisk
  else if distance ≤ zone.radius_meters * 1.5 then
    let approachingScore := zone.risk_score * 0.5
    if approachingScore > highestRisk.score ∧ highestRisk.level = RiskLevel.safe then
      ⟨RiskLevel.at_risk, approachingScore, some zone, false⟩
    else highestRisk
  else highestRisk

/-- The server-side zone loop of `check-risk-zone/index.ts`, with the wall
clock hour injected as a parameter. -/
noncomputable def serverEval (hour : ℕ) (latitude longitude : ℝ)
    (riskZones : List RiskZone) : EvalResult :=
  riskZones.foldl (serverStep hour latitude longitude)
    ⟨RiskLevel.safe, 0, none, false⟩

/-- One iteration of the zone loop in `checkRiskAtLocation`
(`useRiskZones.ts` lines 89-112); the km distance is converted to meters. -/
noncomputable def clientStep (hour : ℕ) (lat lng : ℝ)
    (st : ClientResult) (zone : RiskZone) : ClientResult :=
  let distance := getDistanceFromLatLonInKm lat lng zone.latitude zone.longitude * 1000
  if distance ≤ zone.radius_meters then
    let timeRisk := timeRiskOf zone (timeOfDayOfHour hour)
    if timeRisk > st.score then
      ⟨zone.risk_level, timeRisk, some zone⟩
    else st
  else if distance ≤ zone.radius_meters * 1.5 then
    let approachingScore := zone.risk_score * 0.5
    if approachingScore > st.score ∧ st.level = RiskLevel.safe then
      ⟨RiskLevel.at_risk, approachingScore, some zone⟩
    else st
  else st

/-- The client evaluator `checkRiskAtLocation` of `useRiskZones.ts`, with the
wall clock hour injected as a parameter. -/
noncomputable def checkRiskAtLocation (hour : ℕ) (lat lng : ℝ)
    (riskZones : List RiskZone) : ClientResult :=
  riskZones.foldl (clientStep hour lat lng) ⟨RiskLevel.safe, 0, none⟩

/-- Modelled from the spec, section 4.3, steps 2-4: one step of the spec's
fold, for an abstract per-zone distance `d` and time-weighted score `w`.
Containment (`distance ≤ radius`) replaces the result on a strictly greater
weighted score; approach (`radius < distance ≤ 1.5 × radius`) upgrades only
from the `safe` level. -/
noncomputable def specStep (d : RiskZone → ℝ) (w : RiskZone → ℝ)
    (result : EvalResult) (zone : RiskZone) : EvalResult :=
  let distance := d zone
  if distance ≤ zone.radius_meters then
    (if w zone > result.score then
      ⟨zone.risk_level, w zone, some zone, true⟩
    else result)
  else if zone.radius_meters < distance ∧ distance ≤ 1.5 * zone.radius_meters then
    (let approaching_score := zone.risk_score * 0.5
     if approaching_score > result.score ∧ result.level = RiskLevel.safe then
       ⟨RiskLevel.at_risk, approaching_score, some zone, false⟩
     else result)
  else result

/-- Modelled from the spec, section 4.3, steps 1 and 5: start from
`{safe, 0, none, false}` and fold `specStep` over the zone sequence. -/
noncomputable def specEval (d : RiskZone → ℝ) (w : RiskZone → ℝ)
    (zones : List RiskZone) : EvalResult :=
  zones.foldl (specStep d w) ⟨RiskLevel.safe, 0, none, false⟩

/-- The approach band of the zone loop: strictly outside the zone's radius
but within 1.5 times the radius of the point. -/
def inApproachBand (lat lon : ℝ) (z : RiskZone) : Prop :=
  z.radius_meters < getDistanceInMeters lat lon z.latitude z.longitude ∧
    getDistanceInMeters lat lon z.latitude z.longitude ≤ z.radius_meters * 1.5

/-- Score evolution of the zone loop restricted to the containment branch:
a running maximum of weighted scores over contained zones. -/
noncomputable def containScoreStep (hour : ℕ) (lat lon : ℝ) (s : ℝ) (z : RiskZone) : ℝ :=
  if getDistanceInMeters lat lon z.latitude z.longitude ≤ z.radius_meters then
    max s (timeRiskOf z (timeOfDayOfHour hour))
  else s

/-- First sample zone of `useRiskZones.ts`, recentred at the origin for
concrete evaluation. -/
noncomputable def zoneA : RiskZone :=
  { id := "1", name := "Downtown Area", latitude := 0, longitude := 0,
    radius_meters := 1000, risk_score := 0.7, risk_level := RiskLevel.at_risk,
    incident_count := 15, time_of_day_risk := ⟨none, none⟩,
    description := "Moderate risk area" }

/-- Second sample zone of `useRiskZones.ts`, recentred at the origin for
concrete evaluation. -/
noncomputable def zoneB : RiskZone :=
  { id := "2", name := "Industrial Zone", latitude := 0, longitude := 0,
    radius_meters := 800, risk_score := 0.85, risk_level := RiskLevel.emergency,
    incident_count := 25, time_of_day_risk := ⟨some 0.95, some 0.6⟩,
    description := "High risk area" }

/-- A zone whose night override is present but equal to 0, exercising the JS
falsiness of `0` in the weighted-score resolution. -/
noncomputable def zoneC4 : RiskZone :=
  { id := "3", name := "Quiet At Night", latitude := 0, longitude := 0,
    radius_meters := 1000, risk_score := 0.5, risk_level := RiskLevel.at_risk,
    incident_count := 3, time_of_day_risk := ⟨some 0, some 0.2⟩,
    description := "Zero night override" }

/-- A zone placed so that the origin lies in its approach band: the point
(0, 0) is at haversine distance 6371000·π from (180, 0), and the radius is
five sixths of that. -/
noncomputable def zoneP : RiskZone :=
  { id := "P", name := "Approach P", latitude := 180, longitude := 0,
    radius_meters := 6371000 * π * 5 / 6, risk_score := 0.8,
    risk_level := RiskLevel.emergency, incident_count := 0,
    time_of_day_risk := ⟨none, none⟩, description := "" }

/-- A containment zone at the origin with level emergency and a weighted
score (0.3) below `zoneP`'s approach score (0.4), exhibiting order dependence
of both the level and the score. -/
noncomputable def zoneR : RiskZone :=
  { id := "R", name := "Contain R", latitude := 0, longitude := 0,
    radius_meters := 1000, risk_score := 0.3, risk_level := RiskLevel.emergency,
    incident_count := 0, time_of_day_risk := ⟨none, none⟩, description := "" }

/-- The containment case of the zone loop: the point lies within the zone's
radius. -/
def containedIn (lat lon : ℝ) (z : RiskZone) : Prop :=
  getDistanceInMeters lat lon z.latitude z.longitude ≤ z.radius_meters

/-- An emergency contact row (`emergency_contacts` table). -/
structure EmergencyContact where
  id : String
  user_id : String
  name : String
  phone : String

/-- The `user_preferences` row fields read by the auto-alert gate. -/
structure UserPreferences where
  auto_alert_on_risk_zone : Bool

/-- An incident row as inserted by the two serverless functions. -/
structure Incident where
  id : String
  user_id : String
  latitude : ℝ
  longitude : ℝ
  alert_type : String
  risk_level : String
  status : String
  description : Option String

/-- An alert row as inserted by the two serverless functions. -/
structure Alert where
  incident_id : String
  contact_id : Option String
  sent_to_police : Bool
  message : String
  latitude : ℝ
  longitude : ℝ

/-- String form of a risk level, as serialized into incident rows. -/
def RiskLevel.toStr : RiskLevel → String
  | RiskLevel.safe => "safe"
  | RiskLevel.at_risk => "at_risk"
  | RiskLevel.emergency => "emergency"

/-- The `alertsToCreate` batch of `send-sos-alert/index.ts` (lines 66-95):
one alert per emergency contact, then one police alert with a null contact
reference. The two rendered message strings are passed in as parameters. -/
noncomputable def sosAlertsToCreate (incidentId : String)
    (contacts : List EmergencyContact) (emergencyMessage policeMessage : String)
    (latitude longitude : ℝ) : List Alert :=
  (contacts.map fun contact =>
    { incident_id := incidentId, contact_id := some contact.id,
      sent_to_police := false, message := emergencyMessage,
      latitude := latitude, longitude := longitude }) ++
  [{ incident_id := incidentId, contact_id := none, sent_to_police := true,
     message := policeMessage, latitude := latitude, longitude := longitude }]

/-- The `alertsToCreate` batch of the auto-alert path in
`check-risk-zone/index.ts` (lines 132-148): one alert per contact and no
police alert. When the contact list is empty the code skips the insert,
which persists the same (empty) set of alerts as mapping the empty list. -/
noncomputable def autoAlertsToCreate (incidentId : String)
    (contacts : List EmergencyContact) (alertMessage : String)
    (latitude longitude : ℝ) : List Alert :=
  contacts.map fun contact =>
    { incident_id := incidentId, contact_id := some contact.id,
      sent_to_police := false, message := alertMessage,
      latitude := latitude, longitude := longitude }

/-- Responses of the `send-sos-alert` endpoint: the success JSON body or the
catch-all error body (HTTP 500). -/
inductive SosResponse where
  | ok (success : Bool) (incidentId : String) (alertsSent : ℕ)
  | error (message : String)

/-- The `send-sos-alert` handler of `send-sos-alert/index.ts`, with
persistence modelled by oracles: `incidentInsert` is the result of the
incident insert, `contactsFetch` the result of the contacts query (on error
the code logs and proceeds with no contacts), and `alertsInsertError` the
error of the alerts insert, which the code only logs — the response does not
depend on it. An incident-insert error is thrown and becomes the error
response. Returns the response together with the alert batch handed to the
alerts insert. -/
noncomputable def sendSosAlertHandler (latitude longitude : ℝ)
    (emergencyMessage policeMessage : String)
    (incidentInsert : Except String Incident)
    (contactsFetch : Except String (List EmergencyContact))
    (_alertsInsertError : Option String) : SosResponse × List Alert :=
  match incidentInsert with
  | Except.error e => (SosResponse.error e, [])
  | Except.ok incident =>
      let contacts := match contactsFetch with
        | Except.ok cs => cs
        | Except.error _ => []
      let alertsToCreate :=
        sosAlertsToCreate incident.id contacts emergencyMessage policeMessage
          latitude longitude
      (SosResponse.ok true incident.id alertsToCreate.length, alertsToCreate)

/-- The success JSON body of the `check-risk-zone` endpoint. -/
structure RiskCheckResponse where
  riskLevel : RiskLevel
  riskScore : ℝ
  inRiskZone : Bool
  zoneName : Option String
  zoneDescription : Option String
  nearbyZones : ℕ

/-- The `check-risk-zone` handler of `check-risk-zone/index.ts` after a
successful zone fetch, with the clock hour injected, preference and contact
lookups modelled as oracles, the fresh incident id supplied by
`newIncidentId`, and the rendered alert message passed in as a parameter.
Returns the response body, the auto-alert incident (if the gate fires;
persistence is modelled as succeeding) and the alert batch inserted. -/
noncomputable def checkRiskZoneHandler (hour : ℕ) (latitude longitude : ℝ)
    (userId : Option String) (riskZones : List RiskZone)
    (getPrefs : String → Option UserPreferences) (newIncidentId : String)
    (contacts : List EmergencyContact) (alertMessage : String) :
    RiskCheckResponse × Option Incident × List Alert :=
  let highestRisk := serverEval hour latitude longitude riskZones
  let fired : Option Incident × List Alert :=
    match userId with
    | none => (none, [])
    | some uid =>
        if highestRisk.inZone = true ∧ highestRisk.level = RiskLevel.emergency then
          match getPrefs uid with
          | some prefs =>
              if prefs.auto_alert_on_risk_zone then
                let incident : Incident :=
                  { id := newIncidentId, user_id := uid, latitude := latitude,
                    longitude := longitude, alert_type := "risk_zone_entry",
                    risk_level := highestRisk.level.toStr, status := "pending",
                    description := some ("Auto-alert: Entered " ++
                      (match highestRisk.zone with
                       | some z => if z.name = "" then "high-risk zone" else z.name
                       | none => "high-risk zone")) }
                (some incident,
                 autoAlertsToCreate incident.id contacts alertMessage latitude longitude)
              else (none, [])
          | none => (none, [])
        else (none, [])
  let response : RiskCheckResponse :=
    { riskLevel := highestRisk.level, riskScore := highestRisk.score,
      inRiskZone := highestRisk.inZone,
      zoneName := match highestRisk.zone with
        | some z => if z.name = "" then none else some z.name
        | none => none,
      zoneDescription := match highestRisk.zone with
        | some z => if z.description = "" then none else some z.description
        | none => none,
      nearbyZones := riskZones.length }
  (response, fired)

/-- A concrete incident used by concrete instantiations of the handler
theorems. -/
noncomputable def incident0 : Incident :=
  { id := "inc-1", user_id := "u1", latitude := 0, longitude := 0,
    alert_type := "sos", risk_level := "emergency", status := "active",
    description := none }

/-- A concrete emergency contact used by concrete instantiations of the
fan-out theorem. -/
def contact0 : EmergencyContact :=
  { id := "c-1", user_id := "u1", name := "Mom", phone := "123" }

/-- The authority alert produced by `sosAlertsToCreate` for `incident0` with
police message "p". -/
noncomputable def policeAlert0 : Alert :=
  { incident_id := "inc-1", contact_id := none, sent_to_police := true,
    message := "p", latitude := 0, longitude := 0 }

theorem serverStep_eq_specStep (hour : ℕ) (lat lon : ℝ)
    (r : EvalResult) (z : RiskZone) :
    serverStep hour lat lon r z =
      specStep (fun z => getDistanceInMeters lat lon z.latitude z.longitude)
        (fun z => timeRiskOf z (timeOfDayOfHour hour)) r z := by
  unfold serverStep specStep
  by_cases h1 : getDistanceInMeters lat lon z.latitude z.longitude ≤ z.radius_meters
  · simp [h1]
  · have hlt : z.radius_meters < getDistanceInMeters lat lon z.latitude z.longitude :=
      lt_of_not_le h1
    by_cases h2 : getDistanceInMeters lat lon z.latitude z.longitude ≤ z.radius_meters * 1.5
    · have h3 : z.radius_meters < getDistanceInMeters lat lon z.latitude z.longitude ∧
        getDistanceInMeters lat lon z.latitude z.longitude ≤ 1.5 * z.radius_meters :=
        ⟨hlt, by linarith⟩
      simp [h1, h2, h3]
    · have h3 : ¬(z.radius_meters < getDistanceInMeters lat lon z.latitude z.longitude ∧
        getDistanceInMeters lat lon z.latitude z.longitude ≤ 1.5 * z.radius_meters) := by
        rintro ⟨_, hc⟩
        exact h2 (by linarith)
      simp [h1, h2, h3]

/-- C1: for every point and finite zone sequence, the server evaluator is
exactly the spec's fold (initialized at the safe default, containment
replacing on a strictly greater time-weighted score, approach upgrading only
from `safe`, result returned after the last zone); an empty zone sequence
returns the safe default. -/
theorem c1_server_eval_is_spec_fold (hour : ℕ) (lat lon : ℝ) (zs : List RiskZone) :
    serverEval hour lat lon zs =
      specEval (fun z => getDistanceInMeters lat lon z.latitude z.longitude)
        (fun z => timeRiskOf z (timeOfDayOfHour hour)) zs ∧
    serverEval hour lat lon [] = ⟨RiskLevel.safe, 0, none, false⟩ := by
  refine ⟨?_, rfl⟩
  unfold serverEval specEval
  congr 1
  funext r z
  exact serverStep_eq_specStep hour lat lon r z

theorem getDistanceFromLatLonInKm_mul_1000 (lat1 lon1 lat2 lon2 : ℝ) :
    getDistanceFromLatLonInKm lat1 lon1 lat2 lon2 * 1000 =
      getDistanceInMeters lat1 lon1 lat2 lon2 := by
  simp only [getDistanceFromLatLonInKm, getDistanceInMeters, deg2rad]
  rw [show (lat2 - lat1) * (π / 180) = (lat2 - lat1) * π / 180 from by ring,
      show (lon2 - lon1) * (π / 180) = (lon2 - lon1) * π / 180 from by ring,
      show lat1 * (π / 180) = lat1 * π / 180 from by ring,
      show lat2 * (π / 180) = lat2 * π / 180 from by ring]
  ring

theorem getDistanceInMeters_self (lat lon : ℝ) :
    getDistanceInMeters lat lon lat lon = 0 := by
  simp only [getDistanceInMeters]
  rw [show (lat - lat) * π / 180 = (0 : ℝ) from by ring,
      show (lon - lon) * π / 180 = (0 : ℝ) from by ring]
  norm_num [atan2, Real.sin_zero, Real.sqrt_zero, Real.sqrt_one, Real.arctan_zero]

theorem clientStep_proj (hour : ℕ) (lat lon : ℝ) (acc : EvalResult) (z : RiskZone) :
    clientStep hour lat lon ⟨acc.level, acc.score, acc.zone⟩ z =
      ⟨(serverStep hour lat lon acc z).level, (serverStep hour lat lon acc z).score,
       (serverStep hour lat lon acc z).zone⟩ := by
  simp only [clientStep, serverStep, getDistanceFromLatLonInKm_mul_1000]
  split_ifs <;> rfl

theorem foldl_client_proj_server (hour : ℕ) (lat lon : ℝ) (zs : List RiskZone) :
    ∀ acc : EvalResult,
      zs.foldl (clientStep hour lat lon) ⟨acc.level, acc.score, acc.zone⟩ =
        ⟨(zs.foldl (serverStep hour lat lon) acc).level,
         (zs.foldl (serverStep hour lat lon) acc).score,
         (zs.foldl (serverStep hour lat lon) acc).zone⟩ := by
  induction zs with
  | nil => intro acc; rfl
  | cons z zs ih =>
      intro acc
      simp only [List.foldl_cons]
      rw [clientStep_proj]
      exact ih (serverStep hour lat lon acc z)

/-- C3: for every point, zone set and fixed clock hour, the client-side
evaluator `checkRiskAtLocation` and the server-side zone loop of
`check-risk-zone` produce identical level, score and selected zone. -/
theorem c3_client_matches_server (hour : ℕ) (lat lon : ℝ) (zs : List RiskZone) :
    (checkRiskAtLocation hour lat lon zs).level = (serverEval hour lat lon zs).level ∧
    (checkRiskAtLocation hour lat lon zs).score = (serverEval hour lat lon zs).score ∧
    (checkRiskAtLocation hour lat lon zs).zone = (serverEval hour lat lon zs).zone := by
  have h : checkRiskAtLocation hour lat lon zs =
      ⟨(serverEval hour lat lon zs).level, (serverEval hour lat lon zs).score,
       (serverEval hour lat lon zs).zone⟩ :=
    foldl_client_proj_server hour lat lon zs ⟨RiskLevel.safe, 0, none, false⟩
  rw [h]
  exact ⟨rfl, rfl, rfl⟩

/-- C9: both haversine distance functions are symmetric in their two
coordinate arguments. -/
theorem c9_distance_symmetric (lat1 lon1 lat2 lon2 : ℝ) :
    getDistanceInMeters lat1 lon1 lat2 lon2 = getDistanceInMeters lat2 lon2 lat1 lon1 ∧
    getDistanceFromLatLonInKm lat1 lon1 lat2 lon2 =
      getDistanceFromLatLonInKm lat2 lon2 lat1 lon1 := by
  constructor
  · simp only [getDistanceInMeters]
    have hA : sin ((lat2 - lat1) * π / 180 / 2) * sin ((lat2 - lat1) * π / 180 / 2) +
        cos (lat1 * π / 180) * cos (lat2 * π / 180) *
          sin ((lon2 - lon1) * π / 180 / 2) * sin ((lon2 - lon1) * π / 180 / 2) =
        sin ((lat1 - lat2) * π / 180 / 2) * sin ((lat1 - lat2) * π / 180 / 2) +
        cos (lat2 * π / 180) * cos (lat1 * π / 180) *
          sin ((lon1 - lon2) * π / 180 / 2) * sin ((lon1 - lon2) * π / 180 / 2) := by
      rw [show (lat1 - lat2) * π / 180 / 2 = -((lat2 - lat1) * π / 180 / 2) from by ring,
          show (lon1 - lon2) * π / 180 / 2 = -((lon2 - lon1) * π / 180 / 2) from by ring]
      simp only [Real.sin_neg]
      ring
    rw [hA]
  · simp only [getDistanceFromLatLonInKm, deg2rad]
    have hA : sin ((lat2 - lat1) * (π / 180) / 2) * sin ((lat2 - lat1) * (π / 180) / 2) +
        cos (lat1 * (π / 180)) * cos (lat2 * (π / 180)) *
          sin ((lon2 - lon1) * (π / 180) / 2) * sin ((lon2 - lon1) * (π / 180) / 2) =
        sin ((lat1 - lat2) * (π / 180) / 2) * sin ((lat1 - lat2) * (π / 180) / 2) +
        cos (lat2 * (π / 180)) * cos (lat1 * (π / 180)) *
          sin ((lon1 - lon2) * (π / 180) / 2) * sin ((lon1 - lon2) * (π / 180) / 2) := by
      rw [show (lat1 - lat2) * (π / 180) / 2 = -((lat2 - lat1) * (π / 180) / 2) from by ring,
          show (lon1 - lon2) * (π / 180) / 2 = -((lon2 - lon1) * (π / 180) / 2) from by ring]
      simp only [Real.sin_neg]
      ring
    rw [hA]

theorem serverStep_score_no_approach (hour : ℕ) (lat lon : ℝ) (acc : EvalResult)
    (z : RiskZone) (hz : ¬ inApproachBand lat lon z) :
    (serverStep hour lat lon acc z).score = containScoreStep hour lat lon acc.score z := by
  unfold serverStep containScoreStep
  by_cases h1 : getDistanceInMeters lat lon z.latitude z.longitude ≤ z.radius_meters
  · by_cases h2 : timeRiskOf z (timeOfDayOfHour hour) > acc.score
    · simp [h1, h2, max_eq_right (le_of_lt h2)]
    · simp [h1, h2, max_eq_left (not_lt.mp h2)]
  · have h2 : ¬ getDistanceInMeters lat lon z.latitude z.longitude ≤ z.radius_meters * 1.5 := by
      intro hle
      exact hz ⟨lt_of_not_le h1, hle⟩
    simp [h1, h2]

theorem foldl_score_no_approach (hour : ℕ) (lat lon : ℝ) (zs : List RiskZone) :
    ∀ acc : EvalResult, (∀ z ∈ zs, ¬ inApproachBand lat lon z) →
      (zs.foldl (serverStep hour lat lon) acc).score =
        zs.foldl (containScoreStep hour lat lon) acc.score := by
  induction zs with
  | nil => intro acc _; rfl
  | cons z zs ih =>
      intro acc hno
      have hz : ¬ inApproachBand lat lon z := hno z (List.mem_cons_self z zs)
      have hrest : ∀ z' ∈ zs, ¬ inApproachBand lat lon z' :=
        fun z' hz' => hno z' (List.mem_cons_of_mem z hz')
      simp only [List.foldl_cons]
      rw [ih (serverStep hour lat lon acc z) hrest,
        serverStep_score_no_approach hour lat lon acc z hz]

theorem containScoreStep_comm (hour : ℕ) (lat lon : ℝ) (s : ℝ) (x y : RiskZone) :
    containScoreStep hour lat lon (containScoreStep hour lat lon s x) y =
      containScoreStep hour lat lon (containScoreStep hour lat lon s y) x := by
  unfold containScoreStep
  split_ifs <;> first
    | rfl
    | rw [max_assoc, max_comm (timeRiskOf x (timeOfDayOfHour hour))
        (timeRiskOf y (timeOfDayOfHour hour)), ← max_assoc]

theorem serverStep_no_update (hour : ℕ) (lat lon : ℝ) (acc : EvalResult)
    (z : RiskZone) (hz : ¬ inApproachBand lat lon z)
    (hw : getDistanceInMeters lat lon z.latitude z.longitude ≤ z.radius_meters →
      timeRiskOf z (timeOfDayOfHour hour) ≤ acc.score) :
    serverStep hour lat lon acc z = acc := by
  simp only [serverStep]
  by_cases h1 : getDistanceInMeters lat lon z.latitude z.longitude ≤ z.radius_meters
  · simp [h1, not_lt.mpr (hw h1)]
  · have h2 : ¬ getDistanceInMeters lat lon z.latitude z.longitude ≤ z.radius_meters * 1.5 :=
      fun hle => hz ⟨lt_of_not_le h1, hle⟩
    simp [h1, h2]

theorem foldl_no_update (hour : ℕ) (lat lon : ℝ) (zs : List RiskZone) :
    ∀ acc : EvalResult, (∀ z ∈ zs, ¬ inApproachBand lat lon z) →
      (∀ z ∈ zs, getDistanceInMeters lat lon z.latitude z.longitude ≤ z.radius_meters →
        timeRiskOf z (timeOfDayOfHour hour) ≤ acc.score) →
      zs.foldl (serverStep hour lat lon) acc = acc := by
  induction zs with
  | nil => intro acc _ _; rfl
  | cons z zs ih =>
      intro acc hno hw
      have hstep : serverStep hour lat lon acc z = acc :=
        serverStep_no_update hour lat lon acc z (hno z (List.mem_cons_self z zs))
          (hw z (List.mem_cons_self z zs))
      simp only [List.foldl_cons, hstep]
      exact ih acc (fun z' hz' => hno z' (List.mem_cons_of_mem z hz'))
        (fun z' hz' => hw z' (List.mem_cons_of_mem z hz'))

theorem foldl_unique_max (hour : ℕ) (lat lon : ℝ) (zmax : RiskZone)
    (zs : List RiskZone) :
    ∀ acc : EvalResult, (∀ z ∈ zs, ¬ inApproachBand lat lon z) →
      zmax ∈ zs →
      getDistanceInMeters lat lon zmax.latitude zmax.longitude ≤ zmax.radius_meters →
      (∀ z ∈ zs, getDistanceInMeters lat lon z.latitude z.longitude ≤ z.radius_meters →
        z ≠ zmax →
        timeRiskOf z (timeOfDayOfHour hour) < timeRiskOf zmax (timeOfDayOfHour hour)) →
      acc.score < timeRiskOf zmax (timeOfDayOfHour hour) →
      zs.foldl (serverStep hour lat lon) acc =
        ⟨zmax.risk_level, timeRiskOf zmax (timeOfDayOfHour hour), some zmax, true⟩ := by
  induction zs with
  | nil => intro acc _ hmem _ _ _; exact absurd hmem (List.not_mem_nil zmax)
  | cons z zs ih =>
      intro acc hno hmem hCmax hlt hacc
      simp only [List.foldl_cons]
      by_cases hzeq : z = zmax
      · have hstep : serverStep hour lat lon acc z =
            ⟨zmax.risk_level, timeRiskOf zmax (timeOfDayOfHour hour), some zmax, true⟩ := by
          rw [hzeq]
          simp [serverStep, hCmax, hacc]
        rw [hstep]
        refine foldl_no_update hour lat lon zs _
          (fun z' hz' => hno z' (List.mem_cons_of_mem z hz')) ?_
        intro z' hz' hC'
        by_cases hz'eq : z' = zmax
        · rw [hz'eq]
        · exact le_of_lt (hlt z' (List.mem_cons_of_mem z hz') hC' hz'eq)
      · have hmem' : zmax ∈ zs := by
          rcases List.mem_cons.mp hmem with h | h
          · exact absurd h.symm hzeq
          · exact h
        have hsc : (serverStep hour lat lon acc z).score <
            timeRiskOf zmax (timeOfDayOfHour hour) := by
          simp only [serverStep]
          by_cases h1 : getDistanceInMeters lat lon z.latitude z.longitude ≤ z.radius_meters
          · by_cases h2 : timeRiskOf z (timeOfDayOfHour hour) > acc.score
            · simpa [h1, h2] using hlt z (List.mem_cons_self z zs) h1 hzeq
            · simpa [h1, h2] using hacc
          · have h2 : ¬ getDistanceInMeters lat lon z.latitude z.longitude ≤
                z.radius_meters * 1.5 :=
              fun hle => hno z (List.mem_cons_self z zs) ⟨lt_of_not_le h1, hle⟩
            simpa [h1, h2] using hacc
        exact ih (serverStep hour lat lon acc z)
          (fun z' hz' => hno z' (List.mem_cons_of_mem z hz')) hmem' hCmax
          (fun z' hz' => hlt z' (List.mem_cons_of_mem z hz')) hsc

theorem exists_max_contained (hour : ℕ) (lat lon : ℝ) (zs : List RiskZone) :
    (∃ z ∈ zs, getDistanceInMeters lat lon z.latitude z.longitude ≤ z.radius_meters) →
    ∃ m ∈ zs, getDistanceInMeters lat lon m.latitude m.longitude ≤ m.radius_meters ∧
      ∀ z ∈ zs, getDistanceInMeters lat lon z.latitude z.longitude ≤ z.radius_meters →
        timeRiskOf z (timeOfDayOfHour hour) ≤ timeRiskOf m (timeOfDayOfHour hour) := by
  induction zs with
  | nil =>
      intro hex
      obtain ⟨z, hz, _⟩ := hex
      exact absurd hz (List.not_mem_nil z)
  | cons z zs ih =>
      intro hex
      by_cases hCz : getDistanceInMeters lat lon z.latitude z.longitude ≤ z.radius_meters
      · by_cases hzs : ∃ z' ∈ zs,
            getDistanceInMeters lat lon z'.latitude z'.longitude ≤ z'.radius_meters
        · obtain ⟨m, hm, hCm, hmax⟩ := ih hzs
          by_cases hcmp : timeRiskOf z (timeOfDayOfHour hour) ≤
              timeRiskOf m (timeOfDayOfHour hour)
          · refine ⟨m, List.mem_cons_of_mem z hm, hCm, ?_⟩
            intro z' hz' hC'
            rcases List.mem_cons.mp hz' with rfl | h
            · exact hcmp
            · exact hmax z' h hC'
          · refine ⟨z, List.mem_cons_self z zs, hCz, ?_⟩
            intro z' hz' hC'
            rcases List.mem_cons.mp hz' with rfl | h
            · exact le_refl _
            · exact le_trans (hmax z' h hC') (le_of_not_le hcmp)
        · refine ⟨z, List.mem_cons_self z zs, hCz, ?_⟩
          intro z' hz' hC'
          rcases List.mem_cons.mp hz' with rfl | h
          · exact le_refl _
          · exact absurd ⟨z', h, hC'⟩ hzs
      · obtain ⟨m0, hm0, hCm0⟩ := hex
        have hm0' : m0 ∈ zs := by
          rcases List.mem_cons.mp hm0 with rfl | h
          · exact absurd hCm0 hCz
          · exact h
        obtain ⟨m, hm, hCm, hmax⟩ := ih ⟨m0, hm0', hCm0⟩
        refine ⟨m, List.mem_cons_of_mem z hm, hCm, ?_⟩
        intro z' hz' hC'
        rcases List.mem_cons.mp hz' with rfl | h
        · exact absurd hC' hCz
        · exact hmax z' h hC'

/-- C2 (amended): when no zone of the set lies in the approach band of the
point (each zone is either within its radius or strictly beyond 1.5 times
its radius), evaluating any permutation of the zone set yields the same
score; if moreover no two contained zones share the same time-weighted
score, every permutation yields the identical full evaluation result
(level, score, selected zone and inside flag). The original unrestricted
claim is refuted by `c2_counterexample`: with an approach-band zone, the
safe-level gate makes both the level and the score depend on the order of
the zones. -/
theorem c2_perm_invariance_without_approach (hour : ℕ) (lat lon : ℝ)
    (zs zs' : List RiskZone) (hperm : zs.Perm zs')
    (hno : ∀ z ∈ zs, ¬ inApproachBand lat lon z) :
    (serverEval hour lat lon zs).score = (serverEval hour lat lon zs').score ∧
    ((∀ z ∈ zs, ∀ z₂ ∈ zs, containedIn lat lon z → containedIn lat lon z₂ →
        timeRiskOf z (timeOfDayOfHour hour) = timeRiskOf z₂ (timeOfDayOfHour hour) →
        z = z₂) →
      serverEval hour lat lon zs = serverEval hour lat lon zs') := by
  have hno' : ∀ z ∈ zs', ¬ inApproachBand lat lon z :=
    fun z hz => hno z (hperm.mem_iff.mpr hz)
  constructor
  · unfold serverEval
    rw [foldl_score_no_approach hour lat lon zs _ hno,
      foldl_score_no_approach hour lat lon zs' _ hno']
    exact hperm.foldl_eq' (fun x _ y _ s => containScoreStep_comm hour lat lon s x y) _
  · intro hdist
    by_cases hex : ∃ z ∈ zs,
        getDistanceInMeters lat lon z.latitude z.longitude ≤ z.radius_meters ∧
        0 < timeRiskOf z (timeOfDayOfHour hour)
    · obtain ⟨z₀, hz₀, hC₀, hw₀⟩ := hex
      obtain ⟨m, hm, hCm, hmax⟩ := exists_max_contained hour lat lon zs ⟨z₀, hz₀, hC₀⟩
      have hwm : 0 < timeRiskOf m (timeOfDayOfHour hour) :=
        lt_of_lt_of_le hw₀ (hmax z₀ hz₀ hC₀)
      have hstrict : ∀ z ∈ zs,
          getDistanceInMeters lat lon z.latitude z.longitude ≤ z.radius_meters →
          z ≠ m → timeRiskOf z (timeOfDayOfHour hour) < timeRiskOf m (timeOfDayOfHour hour) := by
        intro z hz hC hne
        refine lt_of_le_of_ne (hmax z hz hC) ?_
        intro heq
        exact hne (hdist z hz m hm hC hCm heq)
      have h1 : serverEval hour lat lon zs =
          ⟨m.risk_level, timeRiskOf m (timeOfDayOfHour hour), some m, true⟩ :=
        foldl_unique_max hour lat lon m zs _ hno hm hCm hstrict hwm
      have h2 : serverEval hour lat lon zs' =
          ⟨m.risk_level, timeRiskOf m (timeOfDayOfHour hour), some m, true⟩ :=
        foldl_unique_max hour lat lon m zs' _ hno' (hperm.mem_iff.mp hm) hCm
          (fun z hz hC hne => hstrict z (hperm.mem_iff.mpr hz) hC hne) hwm
      rw [h1, h2]
    · push_neg at hex
      have e1 : serverEval hour lat lon zs = ⟨RiskLevel.safe, 0, none, false⟩ :=
        foldl_no_update hour lat lon zs _ hno hex
      have e2 : serverEval hour lat lon zs' = ⟨RiskLevel.safe, 0, none, false⟩ :=
        foldl_no_update hour lat lon zs' _ hno'
          (fun z hz => hex z (hperm.mem_iff.mpr hz))
      rw [e1, e2]

theorem getDistanceInMeters_antipodal : getDistanceInMeters 0 0 180 0 = 6371000 * π := by
  simp only [getDistanceInMeters]
  rw [show ((180 : ℝ) - 0) * π / 180 / 2 = π / 2 from by ring,
    show ((0 : ℝ) - 0) * π / 180 / 2 = (0 : ℝ) from by ring,
    show (0 : ℝ) * π / 180 = (0 : ℝ) from by ring,
    show (180 : ℝ) * π / 180 = π from by ring]
  norm_num [atan2, Real.sin_pi_div_two, Real.sin_zero, Real.cos_zero, Real.cos_pi,
    Real.sqrt_one, Real.sqrt_zero]
  ring

theorem c2_counterexample :
    ([zoneP, zoneR] : List RiskZone).Perm [zoneR, zoneP] ∧
    (serverEval 10 0 0 [zoneP, zoneR]).level ≠ (serverEval 10 0 0 [zoneR, zoneP]).level ∧
    (serverEval 10 0 0 [zoneP, zoneR]).score ≠ (serverEval 10 0 0 [zoneR, zoneP]).score := by
  have hc : ¬ ((6371000 : ℝ) * π ≤ 6371000 * π * 5 / 6) := by
    nlinarith [Real.pi_pos]
  have ha : (6371000 : ℝ) * π ≤ 6371000 * π * 5 / 6 * (3 / 2) := by
    nlinarith [Real.pi_pos]
  have e1 : serverEval 10 0 0 [zoneP, zoneR] =
      ⟨RiskLevel.at_risk, 0.8 * 0.5, some zoneP, false⟩ := by
    simp only [serverEval, List.foldl_cons, List.foldl_nil, serverStep, zoneP, zoneR,
      timeRiskOf, TimeOfDayRisk.get, timeOfDayOfHour]
    rw [getDistanceInMeters_antipodal, getDistanceInMeters_self]
    norm_num [hc, ha]
  have e2 : serverEval 10 0 0 [zoneR, zoneP] =
      ⟨RiskLevel.emergency, 0.3, some zoneR, true⟩ := by
    simp only [serverEval, List.foldl_cons, List.foldl_nil, serverStep, zoneP, zoneR,
      timeRiskOf, TimeOfDayRisk.get, timeOfDayOfHour]
    rw [getDistanceInMeters_antipodal, getDistanceInMeters_self]
    norm_num [hc, ha]
    decide
  refine ⟨List.Perm.swap zoneR zoneP [], ?_, ?_⟩
  · rw [e1, e2]
    simp
  · rw [e1, e2]
    norm_num

theorem c2_witness :
    ([zoneA, zoneB] : List RiskZone).Perm [zoneB, zoneA] ∧
    (∀ z ∈ ([zoneA, zoneB] : List RiskZone), ¬ inApproachBand 0 0 z) ∧
    (∀ z ∈ ([zoneA, zoneB] : List RiskZone), ∀ z₂ ∈ ([zoneA, zoneB] : List RiskZone),
      containedIn 0 0 z → containedIn 0 0 z₂ →
      timeRiskOf z (timeOfDayOfHour 10) = timeRiskOf z₂ (timeOfDayOfHour 10) →
      z = z₂) ∧
    serverEval 10 0 0 [zoneA, zoneB] = serverEval 10 0 0 [zoneB, zoneA] := by
  have hperm : ([zoneA, zoneB] : List RiskZone).Perm [zoneB, zoneA] :=
    List.Perm.swap zoneB zoneA []
  have hno : ∀ z ∈ ([zoneA, zoneB] : List RiskZone), ¬ inApproachBand 0 0 z := by
    intro z hz
    rcases List.mem_cons.mp hz with rfl | hz'
    · norm_num [inApproachBand, zoneA, getDistanceInMeters_self]
    · rcases List.mem_cons.mp hz' with rfl | hz''
      · norm_num [inApproachBand, zoneB, getDistanceInMeters_self]
      · exact absurd hz'' (List.not_mem_nil z)
  have hwA : timeRiskOf zoneA (timeOfDayOfHour 10) = 0.7 := by
    norm_num [timeRiskOf, TimeOfDayRisk.get, timeOfDayOfHour, zoneA]
  have hwB : timeRiskOf zoneB (timeOfDayOfHour 10) = 0.6 := by
    norm_num [timeRiskOf, TimeOfDayRisk.get, timeOfDayOfHour, zoneB]
  have hdist : ∀ z ∈ ([zoneA, zoneB] : List RiskZone),
      ∀ z₂ ∈ ([zoneA, zoneB] : List RiskZone),
      containedIn 0 0 z → containedIn 0 0 z₂ →
      timeRiskOf z (timeOfDayOfHour 10) = timeRiskOf z₂ (timeOfDayOfHour 10) →
      z = z₂ := by
    intro z hz z₂ hz₂ _ _ hww
    rcases List.mem_cons.mp hz with rfl | hz'
    · rcases List.mem_cons.mp hz₂ with rfl | hz₂'
      · rfl
      · rcases List.mem_cons.mp hz₂' with rfl | h
        · exfalso
          rw [hwA, hwB] at hww
          norm_num at hww
        · exact absurd h (List.not_mem_nil z₂)
    · rcases List.mem_cons.mp hz' with rfl | h
      · rcases List.mem_cons.mp hz₂ with rfl | hz₂'
        · exfalso
          rw [hwB, hwA] at hww
          norm_num at hww
        · rcases List.mem_cons.mp hz₂' with rfl | h'
          · rfl
          · exact absurd h' (List.not_mem_nil z₂)
      · exact absurd h (List.not_mem_nil z)
  exact ⟨hperm, hno, hdist,
    (c2_perm_invariance_without_approach 10 0 0 _ _ hperm hno).2 hdist⟩

theorem serverStep_zone_mem (hour : ℕ) (lat lon : ℝ) (acc : EvalResult)
    (z w : RiskZone) (h : (serverStep hour lat lon acc z).zone = some w) :
    w = z ∨ acc.zone = some w := by
  simp only [serverStep] at h
  split_ifs at h
  · exact Or.inl (Option.some.inj h).symm
  · exact Or.inr h
  · exact Or.inl (Option.some.inj h).symm
  · exact Or.inr h
  · exact Or.inr h

theorem clientStep_zone_mem (hour : ℕ) (lat lon : ℝ) (acc : ClientResult)
    (z w : RiskZone) (h : (clientStep hour lat lon acc z).zone = some w) :
    w = z ∨ acc.zone = some w := by
  simp only [clientStep] at h
  split_ifs at h
  · exact Or.inl (Option.some.inj h).symm
  · exact Or.inr h
  · exact Or.inl (Option.some.inj h).symm
  · exact Or.inr h
  · exact Or.inr h

theorem foldl_zone_mem_server (hour : ℕ) (lat lon : ℝ) (zs : List RiskZone) :
    ∀ (acc : EvalResult) (w : RiskZone),
      (zs.foldl (serverStep hour lat lon) acc).zone = some w →
        w ∈ zs ∨ acc.zone = some w := by
  induction zs with
  | nil => intro acc w h; exact Or.inr h
  | cons z zs ih =>
      intro acc w h
      rcases ih (serverStep hour lat lon acc z) w h with h1 | h2
      · exact Or.inl (List.mem_cons_of_mem z h1)
      · rcases serverStep_zone_mem hour lat lon acc z w h2 with rfl | h3
        · exact Or.inl (List.mem_cons_self w zs)
        · exact Or.inr h3

theorem foldl_zone_mem_client (hour : ℕ) (lat lon : ℝ) (zs : List RiskZone) :
    ∀ (acc : ClientResult) (w : RiskZone),
      (zs.foldl (clientStep hour lat lon) acc).zone = some w →
        w ∈ zs ∨ acc.zone = some w := by
  induction zs with
  | nil => intro acc w h; exact Or.inr h
  | cons z zs ih =>
      intro acc w h
      rcases ih (clientStep hour lat lon acc z) w h with h1 | h2
      · exact Or.inl (List.mem_cons_of_mem z h1)
      · rcases clientStep_zone_mem hour lat lon acc z w h2 with rfl | h3
        · exact Or.inl (List.mem_cons_self w zs)
        · exact Or.inr h3

/-- C8: whenever either evaluator returns a selected zone, that zone is a
member of the zone list the evaluator was called on; the invariant is
preserved across every iteration of the fold. -/
theorem c8_selected_zone_mem (hour : ℕ) (lat lon : ℝ) (zs : List RiskZone)
    (w : RiskZone) :
    ((serverEval hour lat lon zs).zone = some w → w ∈ zs) ∧
    ((checkRiskAtLocation hour lat lon zs).zone = some w → w ∈ zs) := by
  constructor
  · intro h
    rcases foldl_zone_mem_server hour lat lon zs _ w h with h1 | h2
    · exact h1
    · simp at h2
  · intro h
    rcases foldl_zone_mem_client hour lat lon zs _ w h with h1 | h2
    · exact h1
    · simp at h2

theorem serverEval_zoneB : serverEval 10 0 0 [zoneB] =
    ⟨RiskLevel.emergency, 0.6, some zoneB, true⟩ := by
  simp only [serverEval, List.foldl_cons, List.foldl_nil, serverStep, zoneB,
    timeRiskOf, TimeOfDayRisk.get, timeOfDayOfHour]
  rw [getDistanceInMeters_self]
  norm_num

theorem clientEval_zoneB : checkRiskAtLocation 10 0 0 [zoneB] =
    ⟨RiskLevel.emergency, 0.6, some zoneB⟩ := by
  simp only [checkRiskAtLocation, List.foldl_cons, List.foldl_nil, clientStep, zoneB,
    timeRiskOf, TimeOfDayRisk.get, timeOfDayOfHour, getDistanceFromLatLonInKm_mul_1000]
  rw [getDistanceInMeters_self]
  norm_num

theorem c8_witness :
    ((serverEval 10 0 0 [zoneB]).zone = some zoneB ∧ zoneB ∈ ([zoneB] : List RiskZone)) ∧
    ((checkRiskAtLocation 10 0 0 [zoneB]).zone = some zoneB ∧
      zoneB ∈ ([zoneB] : List RiskZone)) := by
  have hs : (serverEval 10 0 0 [zoneB]).zone = some zoneB := by
    rw [serverEval_zoneB]
  have hc : (checkRiskAtLocation 10 0 0 [zoneB]).zone = some zoneB := by
    rw [clientEval_zoneB]
  exact ⟨⟨hs, (c8_selected_zone_mem 10 0 0 [zoneB] zoneB).1 hs⟩,
    ⟨hc, (c8_selected_zone_mem 10 0 0 [zoneB] zoneB).2 hc⟩⟩

theorem c4_counterexample :
    zoneC4.time_of_day_risk.get (timeOfDayOfHour 20) = some 0 ∧
    timeRiskOf zoneC4 (timeOfDayOfHour 20) = zoneC4.risk_score ∧
    zoneC4.risk_score ≠ 0 ∧
    serverEval 20 0 0 [zoneC4] =
      ⟨zoneC4.risk_level, zoneC4.risk_score, some zoneC4, true⟩ := by
  refine ⟨rfl, ?_, ?_, ?_⟩
  · norm_num [timeRiskOf, TimeOfDayRisk.get, timeOfDayOfHour, zoneC4]
  · norm_num [zoneC4]
  · simp only [serverEval, List.foldl_cons, List.foldl_nil, serverStep, zoneC4,
      timeRiskOf, TimeOfDayRisk.get, timeOfDayOfHour]
    rw [getDistanceInMeters_self]
    norm_num

/-- C4 (amended): the time-weighted score used in the containment case is the
zone's per-bucket override for the bucket (night when the hour is at least
18 or below 6, day otherwise) whenever that override is present AND nonzero;
a present override of 0 is JS-falsy and falls back to the base risk score,
as does a missing override. The original claim (a present override of 0 is
used) is refuted by `c4_counterexample`. -/
theorem c4_time_weight_resolution (hour : ℕ) (lat lon : ℝ) (z : RiskZone)
    (hin : getDistanceInMeters lat lon z.latitude z.longitude ≤ z.radius_meters)
    (hpos : 0 < timeRiskOf z (timeOfDayOfHour hour)) :
    serverEval hour lat lon [z] =
      ⟨z.risk_level,
       match z.time_of_day_risk.get
           (if 18 ≤ hour ∨ hour < 6 then TimeBucket.night else TimeBucket.day) with
       | some v => if v = 0 then z.risk_score else v
       | none => z.risk_score,
       some z, true⟩ := by
  have hw : (match z.time_of_day_risk.get
      (if 18 ≤ hour ∨ hour < 6 then TimeBucket.night else TimeBucket.day) with
      | some v => if v = 0 then z.risk_score else v
      | none => z.risk_score) = timeRiskOf z (timeOfDayOfHour hour) := rfl
  rw [hw]
  simp only [serverEval, List.foldl_cons, List.foldl_nil, serverStep]
  rw [if_pos hin]
  simp [hpos]

theorem c4_witness :
    getDistanceInMeters 0 0 zoneB.latitude zoneB.longitude ≤ zoneB.radius_meters ∧
    0 < timeRiskOf zoneB (timeOfDayOfHour 10) ∧
    serverEval 10 0 0 [zoneB] =
      ⟨zoneB.risk_level,
       match zoneB.time_of_day_risk.get
           (if 18 ≤ 10 ∨ 10 < 6 then TimeBucket.night else TimeBucket.day) with
       | some v => if v = 0 then zoneB.risk_score else v
       | none => zoneB.risk_score,
       some zoneB, true⟩ := by
  have hin : getDistanceInMeters 0 0 zoneB.latitude zoneB.longitude ≤ zoneB.radius_meters := by
    simp only [zoneB]
    rw [getDistanceInMeters_self]
    norm_num
  have hpos : 0 < timeRiskOf zoneB (timeOfDayOfHour 10) := by
    norm_num [timeRiskOf, TimeOfDayRisk.get, timeOfDayOfHour, zoneB]
  exact ⟨hin, hpos, c4_time_weight_resolution 10 0 0 zoneB hin hpos⟩

/-- C5: with a user id on the request, the auto-alert incident is created if
and only if the evaluation result's inside flag is true, its level is
emergency, and the user's stored preference `auto_alert_on_risk_zone` is
true (so flipping any one condition suppresses it); and a non-fire is a
silent no-op: the response body is the same whatever the preference store
and contact list hold. -/
theorem c5_auto_alert_gate (hour : ℕ) (lat lon : ℝ) (uid : String)
    (zs : List RiskZone) (getPrefs : String → Option UserPreferences)
    (iid : String) (contacts : List EmergencyContact) (msg : String) :
    ((checkRiskZoneHandler hour lat lon (some uid) zs getPrefs iid contacts msg).2.1.isSome ↔
      ((serverEval hour lat lon zs).inZone = true ∧
       (serverEval hour lat lon zs).level = RiskLevel.emergency ∧
       ∃ p, getPrefs uid = some p ∧ p.auto_alert_on_risk_zone = true)) ∧
    (∀ (getPrefs' : String → Option UserPreferences) (contacts' : List EmergencyContact),
      (checkRiskZoneHandler hour lat lon (some uid) zs getPrefs iid contacts msg).1 =
        (checkRiskZoneHandler hour lat lon (some uid) zs getPrefs' iid contacts' msg).1) := by
  constructor
  · by_cases hg : (serverEval hour lat lon zs).inZone = true ∧
        (serverEval hour lat lon zs).level = RiskLevel.emergency
    · cases hp : getPrefs uid with
      | none => simp [checkRiskZoneHandler, hg, hp]
      | some p =>
          by_cases hb : p.auto_alert_on_risk_zone
          · simp [checkRiskZoneHandler, hg, hp, hb]
          · simp [checkRiskZoneHandler, hg, hp, hb]
    · rw [not_and_or] at hg
      rcases hg with hg | hg
      · simp [checkRiskZoneHandler, hg]
      · simp [checkRiskZoneHandler, hg]
  · intro getPrefs' contacts'
    rfl

theorem c7_counterexample :
    (sendSosAlertHandler 0 0 "m" "p" (Except.ok incident0) (Except.ok [])
      (some "alerts insert failed")).1 = SosResponse.ok true "inc-1" 1 := by
  simp [sendSosAlertHandler, sosAlertsToCreate, incident0]

/-- C7 (amended): an incident persistence failure is surfaced to the caller
as an error response, but an alert persistence failure is only logged: the
endpoint still returns a success response whose `alertsSent` counts the
constructed (not the persisted) alerts. The original claim (every alert
write failure is surfaced as a failed request) is refuted by
`c7_counterexample`. -/
theorem c7_write_failure_surfacing (lat lon : ℝ) (em pm : String)
    (cf : Except String (List EmergencyContact)) (ae : Option String) :
    (∀ e, (sendSosAlertHandler lat lon em pm (Except.error e) cf ae).1 =
      SosResponse.error e) ∧
    (∀ inc, (sendSosAlertHandler lat lon em pm (Except.ok inc) cf ae).1 =
      SosResponse.ok true inc.id
        (sosAlertsToCreate inc.id
          (match cf with | Except.ok cs => cs | Except.error _ => [])
          em pm lat lon).length) := by
  exact ⟨fun e => rfl, fun inc => rfl⟩

/-- C10: the `nearbyZones` field of the response always equals the total
number of risk zones fetched from the store, for every queried point —
it is not a count of zones near the point. -/
theorem c10_nearby_zones_is_fetch_count (hour : ℕ) (lat lon : ℝ)
    (userId : Option String) (zs : List RiskZone)
    (getPrefs : String → Option UserPreferences) (iid : String)
    (contacts : List EmergencyContact) (msg : String) :
    (checkRiskZoneHandler hour lat lon userId zs getPrefs iid contacts msg).1.nearbyZones =
      zs.length := by
  rfl

theorem filter_police_append (l : List Alert) (pol : Alert)
    (hl : ∀ a ∈ l, a.sent_to_police = false) (hpol : pol.sent_to_police = true) :
    (l ++ [pol]).filter (fun a => a.sent_to_police) = [pol] := by
  induction l with
  | nil => simp [hpol]
  | cons a l ih =>
      have ha := hl a (List.mem_cons_self a l)
      simp [ha, ih (fun a' ha' => hl a' (List.mem_cons_of_mem a ha'))]

theorem filter_not_police_append (l : List Alert) (pol : Alert)
    (hl : ∀ a ∈ l, a.sent_to_police = false) (hpol : pol.sent_to_police = true) :
    (l ++ [pol]).filter (fun a => !a.sent_to_police) = l := by
  induction l with
  | nil => simp [hpol]
  | cons a l ih =>
      have ha := hl a (List.mem_cons_self a l)
      simp [ha, ih (fun a' ha' => hl a' (List.mem_cons_of_mem a ha'))]

theorem sos_contact_alerts_not_police (i : String) (cs : List EmergencyContact)
    (em : String) (la lo : ℝ) :
    ∀ a ∈ cs.map (fun contact =>
      ({ incident_id := i, contact_id := some contact.id, sent_to_police := false,
         message := em, latitude := la, longitude := lo } : Alert)),
      a.sent_to_police = false := by
  intro a ha
  rcases List.mem_map.mp ha with ⟨c, _, rfl⟩
  rfl

/-- C6: the SOS fan-out produces exactly one alert per emergency contact plus
exactly one authority alert with a null contact reference and
`sent_to_police = true`, all sharing the incident's location in a single
batch; the auto risk-zone fan-out produces only per-contact alerts and no
authority alert. -/
theorem c6_alert_fanout (inc : Incident) (contacts : List EmergencyContact)
    (emergencyMessage policeMessage autoMessage : String) :
    (sosAlertsToCreate inc.id contacts emergencyMessage policeMessage
        inc.latitude inc.longitude).length = contacts.length + 1 ∧
    ((sosAlertsToCreate inc.id contacts emergencyMessage policeMessage
        inc.latitude inc.longitude).filter (fun a => a.sent_to_police)).length = 1 ∧
    (∀ a ∈ sosAlertsToCreate inc.id contacts emergencyMessage policeMessage
        inc.latitude inc.longitude, a.sent_to_police = true → a.contact_id = none) ∧
    ((sosAlertsToCreate inc.id contacts emergencyMessage policeMessage
        inc.latitude inc.longitude).filter (fun a => !a.sent_to_police)).map
        (fun a => a.contact_id) = contacts.map (fun c => some c.id) ∧
    (∀ a ∈ sosAlertsToCreate inc.id contacts emergencyMessage policeMessage
        inc.latitude inc.longitude,
      a.incident_id = inc.id ∧ a.latitude = inc.latitude ∧ a.longitude = inc.longitude) ∧
    (autoAlertsToCreate inc.id contacts autoMessage inc.latitude inc.longitude).map
        (fun a => a.contact_id) = contacts.map (fun c => some c.id) ∧
    (∀ a ∈ autoAlertsToCreate inc.id contacts autoMessage inc.latitude inc.longitude,
      a.sent_to_police = false ∧
      a.incident_id = inc.id ∧ a.latitude = inc.latitude ∧ a.longitude = inc.longitude) := by
  have hnp := sos_contact_alerts_not_police inc.id contacts emergencyMessage
    inc.latitude inc.longitude
  refine ⟨?_, ?_, ?_, ?_, ?_, ?_, ?_⟩
  · simp [sosAlertsToCreate]
  · rw [show sosAlertsToCreate inc.id contacts emergencyMessage policeMessage
        inc.latitude inc.longitude = _ ++ [_] from rfl,
      filter_police_append _ _ hnp rfl]
    rfl
  · intro a ha hp
    rcases List.mem_append.mp ha with ha' | ha'
    · rcases List.mem_map.mp ha' with ⟨c, _, rfl⟩
      cases hp
    · rcases List.mem_singleton.mp ha' with rfl
      rfl
  · rw [show sosAlertsToCreate inc.id contacts emergencyMessage policeMessage
        inc.latitude inc.longitude = _ ++ [_] from rfl,
      filter_not_police_append _ _ hnp rfl, List.map_map]
    rfl
  · intro a ha
    rcases List.mem_append.mp ha with ha' | ha'
    · rcases List.mem_map.mp ha' with ⟨c, _, rfl⟩
      exact ⟨rfl, rfl, rfl⟩
    · rcases List.mem_singleton.mp ha' with rfl
      exact ⟨rfl, rfl, rfl⟩
  · rw [autoAlertsToCreate, List.map_map]
    rfl
  · intro a ha
    rcases List.mem_map.mp ha with ⟨c, _, rfl⟩
    exact ⟨rfl, rfl, rfl, rfl⟩

theorem c6_witness :
    policeAlert0 ∈ sosAlertsToCreate incident0.id [contact0] "m" "p"
      incident0.latitude incident0.longitude ∧
    policeAlert0.contact_id = none := by
  have hmem : policeAlert0 ∈ sosAlertsToCreate incident0.id [contact0] "m" "p"
      incident0.latitude incident0.longitude := by
    simp [sosAlertsToCreate, policeAlert0, incident0]
  exact ⟨hmem,
    (c6_alert_fanout incident0 [contact0] "m" "p" "a").2.2.1 _ hmem rfl⟩

end Shelytics
